import Mathlib

/-!
Verification of the autobrr action-execution core against its specification.

Shallow embedding of:
  - src/internal/domain/action.go     (Action, ActionType, ParseMacros)
  - src/internal/notification/pushover.go  (pushoverSender.CanSend / Send)

Code of the repository that is not under src/ (the macro engine macros.go,
Release.DownloadTorrentFile, the action dispatcher / persisted store) is
modelled from the spec; each such definition carries a doc comment starting
with "Modelled from the spec:".

Go machine integers are modelled as Int (no arithmetic on them is performed
by the embedded code, so overflow is irrelevant); byte slices as List Nat;
Go errors as Option / Except carrying the message, with wrapping modelled by
dedicated error constructors that retain the cause.
-/

namespace Autobrr

/-- Byte slices ([]byte in Go) are modelled as lists of bytes. -/
abbrev Bytes := List Nat

/-- Pattern pat is a prefix of the character list. -/
def isPrefixList : List Char → List Char → Bool
  | [], _ => true
  | _ :: _, [] => false
  | a :: as, b :: bs => a == b && isPrefixList as bs

/-- Pattern pat occurs as a contiguous block somewhere in the list: it is a
prefix of some suffix. -/
def containsAux (pat : List Char) : List Char → Bool
  | [] => isPrefixList pat []
  | c :: cs => isPrefixList pat (c :: cs) || containsAux pat cs

/-- Embedding of Go strings.Contains s pat: pat occurs as a substring of s.
Both strings involved in action.go are plain ASCII, so the character-wise
reading coincides with the byte-wise one of Go. -/
def containsSubstr (s pat : String) : Bool :=
  containsAux pat.data s.data

/-- ActionType (src/internal/domain/action.go lines 102-121): a string type
with exactly sixteen declared constants, modelled as a closed inductive.
The Go string value of each constant is actionTypeString below. -/
inductive ActionType
  | test
  | exec
  | qbittorrent
  | delugeV1
  | delugeV2
  | rTorrent
  | transmission
  | porla
  | watchFolder
  | webhook
  | radarr
  | sonarr
  | lidarr
  | whisparr
  | readarr
  | sabnzbd
  deriving DecidableEq, Repr

/-- String values of the ActionType constants in their declaration order
(action.go lines 104-121). -/
def actionTypeString : ActionType → String
  | .test => "TEST"
  | .exec => "EXEC"
  | .qbittorrent => "QBITTORRENT"
  | .delugeV1 => "DELUGE_V1"
  | .delugeV2 => "DELUGE_V2"
  | .rTorrent => "RTORRENT"
  | .transmission => "TRANSMISSION"
  | .porla => "PORLA"
  | .watchFolder => "WATCH_FOLDER"
  | .webhook => "WEBHOOK"
  | .radarr => "RADARR"
  | .sonarr => "SONARR"
  | .lidarr => "LIDARR"
  | .whisparr => "WHISPARR"
  | .readarr => "READARR"
  | .sabnzbd => "SABNZBD"

/-- All sixteen ActionType variants, in declaration order of action.go. -/
def allActionTypes : List ActionType :=
  [.test, .exec, .qbittorrent, .delugeV1, .delugeV2, .rTorrent, .transmission,
   .porla, .watchFolder, .webhook, .radarr, .sonarr, .lidarr, .whisparr,
   .readarr, .sabnzbd]

/-- Release context: the fields of domain.Release that action.go reads or
writes (TorrentTmpFile, TorrentDataRawBytes, TorrentName). The remaining
release metadata fields are not touched by the embedded code and are
summarised by the opaque metadata string so that distinct releases stay
distinguishable. -/
structure Release where
  TorrentName : String
  TorrentTmpFile : String
  TorrentDataRawBytes : Bytes
  metadata : String
  deriving DecidableEq, Repr

/-- Action (src/internal/domain/action.go lines 25-58). Go types: int/int32/
int64 fields become Int, string fields String, bool fields Bool. The float64
field LimitRatio is omitted (floating point; no embedded code reads it), and
the Client pointer to the external DownloadClient descriptor is represented
by its id only (the DownloadClient type is external to src/). ContentLayout
is a Go string type (ActionContentLayout) and stays a String here. -/
structure Action where
  ID : Int
  Name : String
  typ : ActionType
  Enabled : Bool
  ExecCmd : String
  ExecArgs : String
  WatchFolder : String
  Category : String
  Tags : String
  Label : String
  SavePath : String
  Paused : Bool
  IgnoreRules : Bool
  SkipHashCheck : Bool
  ContentLayout : String
  LimitUploadSpeed : Int
  LimitDownloadSpeed : Int
  LimitSeedTime : Int
  ReAnnounceSkip : Bool
  ReAnnounceDelete : Bool
  ReAnnounceInterval : Int
  ReAnnounceMaxAttempts : Int
  WebhookHost : String
  WebhookType : String
  WebhookMethod : String
  WebhookData : String
  WebhookHeaders : List String
  ExternalDownloadClientID : Int
  FilterID : Int
  ClientID : Int
  deriving DecidableEq, Repr

/-- Outcome of the external torrent download used by DownloadTorrentFile:
either a temporary file path together with the payload bytes, or an error
message. Part of the environment under which ParseMacros runs. -/
inductive FetchOutcome
  | ok (path : String) (bytes : Bytes)
  | err (msg : String)
  deriving DecidableEq, Repr

/-- Environment for the side effects reached from ParseMacros: the result of
downloading the torrent payload, and the filesystem read os.ReadFile keyed by
path. Fixing the environment captures one unchanged external world. -/
structure Env where
  download : FetchOutcome
  readFile : String → Except String Bytes

/-- Errors returned by ParseMacros. Each constructor is a wrapped error in
the sense of errors.Wrap in action.go: it retains the cause together with the
context the Go code formats into the message (action.go lines 69, 79, 96). -/
inductive PMErr
  | downloadErr (cause : String) (torrentName : String)
  | readErr (cause : String) (tmpFile : String)
  | resolveErr (cause : String) (actionName : String)
  deriving DecidableEq, Repr

/-- Result of a ParseMacros run: the error (none on success), the action and
release values after the run (the Go method mutates both through pointers),
and how often DownloadTorrentFile and os.ReadFile were invoked. -/
structure PMOut where
  err : Option PMErr
  action : Action
  release : Release
  downloads : Nat
  reads : Nat
  deriving DecidableEq, Repr

/-- Modelled from the spec: Release.DownloadTorrentFile is not under src/.
Per spec section 4.1 it downloads the payload from the source
locator of the release and caches both the temporary file path and the bytes; on failure the
release is unchanged. -/
def Release.DownloadTorrentFile (env : Env) (r : Release) : Except String Release :=
  match env.download with
  | .ok p bs => .ok { r with TorrentTmpFile := p, TorrentDataRawBytes := bs }
  | .err m => .error m

/-- Modelled from the spec: the type of the Parse operation of the macro engine
(macros.go, NewMacro / Macro.Parse, is not under src/). Per spec section 4.1
it maps a template string to a resolved string, or fails with a TemplateError
for an unknown or malformed placeholder; the Macro value is built from the
release (m := NewMacro(*release)), hence the Release argument. The returned
string is used by action.go even when the error is non-nil. -/
def ParseFn := Release → String → String × Option String

/-- Guard of the download step (action.go lines 64-67): the temporary file is
absent and either a torrent macro occurs in ExecArgs / WebhookData, the
TorrentPathName macro occurs in SavePath, or the action type is WatchFolder. -/
def downloadGuard (a : Action) (r : Release) : Bool :=
  r.TorrentTmpFile == "" &&
    (containsSubstr a.ExecArgs "TorrentPathName" ||
     containsSubstr a.ExecArgs "TorrentDataRawBytes" ||
     containsSubstr a.WebhookData "TorrentPathName" ||
     containsSubstr a.WebhookData "TorrentDataRawBytes" ||
     containsSubstr a.SavePath "TorrentPathName" ||
     a.typ == ActionType.watchFolder)

/-- Guard of the file-read step (action.go lines 74-76): the raw-bytes cache
is empty and either the TorrentDataRawBytes macro occurs in ExecArgs or
WebhookData, or the action type is WatchFolder. -/
def readGuard (a : Action) (r : Release) : Bool :=
  r.TorrentDataRawBytes.isEmpty &&
    (containsSubstr a.ExecArgs "TorrentDataRawBytes" ||
     containsSubstr a.WebhookData "TorrentDataRawBytes" ||
     a.typ == ActionType.watchFolder)

/-- Substitution phase of ParseMacros (action.go lines 85-99). The Go code
runs the seven assignments a.X, err = m.Parse(a.X) in sequence: every field
receives the string returned by its own Parse call, and the single err
variable is overwritten by each assignment, so the err tested at line 95 is
exactly the error of the last call, the one for WebhookData; the errors of
the first six calls are discarded. dls and rds thread the effect counters of
the earlier phases through to the result. -/
def parsePhase (parse : ParseFn) (a : Action) (r : Release) (dls rds : Nat) : PMOut :=
  let a2 := { a with
    ExecArgs := (parse r a.ExecArgs).1
    WatchFolder := (parse r a.WatchFolder).1
    Category := (parse r a.Category).1
    Tags := (parse r a.Tags).1
    Label := (parse r a.Label).1
    SavePath := (parse r a.SavePath).1
    WebhookData := (parse r a.WebhookData).1 }
  match (parse r a.WebhookData).2 with
  | some m =>
      { err := some (.resolveErr m a.Name), action := a2, release := r,
        downloads := dls, reads := rds }
  | none =>
      { err := none, action := a2, release := r, downloads := dls, reads := rds }

/-- File-read step of ParseMacros (action.go lines 73-83): when the raw-bytes
cache is empty and the action needs the bytes, read the temporary file; on
failure return the wrapped error (the action is not yet modified), otherwise
store the bytes on the release and continue with the substitution phase. -/
def readPhase (parse : ParseFn) (env : Env) (a : Action) (r : Release) (dls : Nat) : PMOut :=
  if readGuard a r then
    match env.readFile r.TorrentTmpFile with
    | .error m =>
        { err := some (.readErr m r.TorrentTmpFile), action := a, release := r,
          downloads := dls, reads := 1 }
    | .ok t => parsePhase parse a { r with TorrentDataRawBytes := t } dls 1
  else
    parsePhase parse a r dls 0

/-- Embedding of Action.ParseMacros (src/internal/domain/action.go lines
61-100), parameterised by the Parse operation of the macro engine (not under src/) and the
effect environment. First the download step (lines 64-71): when the guard
holds, DownloadTorrentFile is invoked; on failure the wrapped error is
returned with action and release unchanged. Then the file-read step and the
substitution phase (readPhase / parsePhase above). -/
def Action.ParseMacros (parse : ParseFn) (env : Env) (a : Action) (r : Release) : PMOut :=
  if downloadGuard a r then
    match Release.DownloadTorrentFile env r with
    | .error m =>
        { err := some (.downloadErr m r.TorrentName), action := a, release := r,
          downloads := 1, reads := 0 }
    | .ok r1 => readPhase parse env a r1 1
  else
    readPhase parse env a r 0

/-- Modelled from the spec: the orchestrator (spec sections 4.2 and 6, not
under src/) invokes execution once per matched action against one shared
Release Context, threading the context (with its payload caches) from one
action to the next; each invocation reads the action by value. -/
def runActionsAux (parse : ParseFn) (env : Env) (r : Release) : List Action → List PMOut
  | [] => []
  | a :: rest =>
      let o := Action.ParseMacros parse env a r
      o :: runActionsAux parse env o.release rest

/-- Modelled from the spec: the engine run over the persisted action store.
The store (the ActionRepo implementation is not under src/) is read, never
written, by the engine: per the spec the engine reads a resolved copy of each
action, and the only writes to the store come from the external toggle and
replace operations. The pair returned is (per-action results, store after the
run). -/
def runActions (parse : ParseFn) (env : Env) (store : List Action) (r : Release) :
    List PMOut × List Action :=
  (runActionsAux parse env r store, store)

/-- Modelled from the spec: the external enable/disable toggle
(ActionRepo.ToggleEnabled, implementation not under src/) flips the Enabled
flag of the action with the given id and touches nothing else. -/
def toggleEnabled (store : List Action) (id : Int) : List Action :=
  store.map fun a => if a.ID == id then { a with Enabled := !a.Enabled } else a

/-- Notification settings: the fields of domain.Notification read by the
pushover sender (pushover.go). Events is the configured event-name list;
Priority is the Go int32 priority. -/
structure Notification where
  Enabled : Bool
  APIKey : String
  Token : String
  Events : List String
  Priority : Int
  deriving DecidableEq, Repr

/-- Embedding of pushoverSender.isEnabled (pushover.go lines 118-134):
enabled and both keys present. -/
def isEnabled (s : Notification) : Bool :=
  if s.Enabled then
    if s.APIKey == "" then false
    else if s.Token == "" then false
    else true
  else false

/-- Embedding of pushoverSender.isEnabledEvent (pushover.go lines 136-144):
linear scan of Settings.Events for the string form of the event. NotificationEvent
is a Go string type, modelled as String. -/
def isEnabledEvent (s : Notification) (event : String) : Bool :=
  s.Events.any fun e => e == event

/-- Embedding of pushoverSender.CanSend (pushover.go lines 111-116). -/
def CanSend (s : Notification) (event : String) : Bool :=
  if isEnabled s && isEnabledEvent s event then true else false

/-- Outcome of the HTTP exchange performed by pushoverSender.Send: failure of
request construction (http.NewRequest), of the round trip (client.Do), of
reading the body (io.ReadAll), or a response with status code and body. -/
inductive HttpOutcome
  | reqErr (msg : String)
  | doErr (msg : String)
  | readBodyErr (msg : String)
  | response (status : Nat) (body : String)
  deriving DecidableEq, Repr

/-- Errors returned by pushoverSender.Send, each wrapping its cause as the Go
code does (pushover.go lines 78, 88, 94, 103). -/
inductive SendErr
  | createReq (cause : String)
  | transport (cause : String)
  | readBody (cause : String)
  | badStatus (status : Nat) (body : String)
  deriving DecidableEq, Repr

/-- Form data assembled by pushoverSender.Send (pushover.go lines 61-73):
the seven unconditional url.Values entries, plus expire and retry exactly
when the priority equals 2. Html is the constant 1 (line 58). -/
def pushoverFormData (s : Notification) (message title : String) (timestamp : Int) :
    List (String × String) :=
  [("token", s.APIKey), ("user", s.Token), ("message", message),
   ("priority", toString s.Priority), ("title", title),
   ("timestamp", toString timestamp), ("html", "1")] ++
  (if s.Priority == 2 then [("expire", "3600"), ("retry", "60")] else [])

/-- Embedding of the result of pushoverSender.Send (pushover.go lines
46-109) as a function of the HTTP outcome: each failure is wrapped and
returned; a response with status other than 200 (http.StatusOK) becomes a
bad-status error; only a status-200 response yields nil. -/
def Send (http : HttpOutcome) : Option SendErr :=
  match http with
  | .reqErr m => some (.createReq m)
  | .doErr m => some (.transport m)
  | .readBodyErr m => some (.readBody m)
  | .response st body => if st != 200 then some (.badStatus st body) else none

/-- Modelled from the spec: a concrete macro-engine Parse instance for
concrete evaluations (macros.go is not under src/). The template "badmacro"
stands for a template with an unknown placeholder: Parse fails on it with a
TemplateError and returns the empty string, as the Go engine returns the
zero string alongside the error. Every other string stands for a
placeholder-free template and resolves to itself. -/
def sampleParse : ParseFn := fun _ s =>
  if s == "badmacro" then ("", some "template error: unknown placeholder")
  else (s, none)

/-- Sample action: type EXEC, empty template fields. -/
def act0 : Action :=
  { ID := 1, Name := "act", typ := .exec, Enabled := true, ExecCmd := "",
    ExecArgs := "", WatchFolder := "", Category := "", Tags := "", Label := "",
    SavePath := "", Paused := false, IgnoreRules := false, SkipHashCheck := false,
    ContentLayout := "", LimitUploadSpeed := 0, LimitDownloadSpeed := 0,
    LimitSeedTime := 0, ReAnnounceSkip := false, ReAnnounceDelete := false,
    ReAnnounceInterval := 7, ReAnnounceMaxAttempts := 3, WebhookHost := "",
    WebhookType := "", WebhookMethod := "", WebhookData := "",
    WebhookHeaders := [], ExternalDownloadClientID := 0, FilterID := 0,
    ClientID := 0 }

/-- Sample release with both payload caches already populated. -/
def relCached : Release :=
  { TorrentName := "rel", TorrentTmpFile := "tmpfile", TorrentDataRawBytes := [7],
    metadata := "meta" }

/-- Sample release with both payload caches empty. -/
def relEmpty : Release :=
  { TorrentName := "rel", TorrentTmpFile := "", TorrentDataRawBytes := [],
    metadata := "meta" }

/-- Sample environment: downloading succeeds with path "dl.torrent" and
payload byte 9; reading any file succeeds with payload byte 9. -/
def envOk : Env :=
  { download := .ok "dl.torrent" [9], readFile := fun _ => .ok [9] }

/-- Sample environment in which the download fails. -/
def envDownloadFail : Env :=
  { download := .err "connection refused", readFile := fun _ => .ok [9] }

/-- Sample action whose ExecArgs template fails macro resolution under
sampleParse while every other templated field resolves successfully. -/
def act1 : Action := { act0 with ExecArgs := "badmacro" }

/-- Sample action of type WatchFolder. -/
def actWF : Action := { act0 with typ := .watchFolder }

/-- Sample action whose Category field mentions the raw-payload macro name
while ExecArgs, WebhookData and SavePath do not. -/
def actCat : Action := { act0 with Category := "TorrentDataRawBytes" }

/-- Reannounce policy block of an Action as the spec describes it: skip,
delete, interval, max attempts (spec section 3). -/
structure ReannouncePolicy where
  skip : Bool
  delete : Bool
  interval : Int
  maxAttempts : Int
  deriving DecidableEq, Repr

/-- Projection of the four ReAnnounce fields of an Action (action.go lines
45-48) to the policy block of the spec. -/
def Action.reannouncePolicy (a : Action) : ReannouncePolicy :=
  { skip := a.ReAnnounceSkip, delete := a.ReAnnounceDelete,
    interval := a.ReAnnounceInterval, maxAttempts := a.ReAnnounceMaxAttempts }

/-- Substitution phase: the release is passed through unchanged and the
effect counters are whatever the earlier phases accumulated. -/
theorem parsePhase_spec (parse : ParseFn) (a : Action) (r : Release) (dls rds : Nat) :
    (parsePhase parse a r dls rds).release = r ∧
    (parsePhase parse a r dls rds).downloads = dls ∧
    (parsePhase parse a r dls rds).reads = rds := by
  unfold parsePhase
  cases (parse r a.WebhookData).2 <;> exact ⟨rfl, rfl, rfl⟩

/-- File-read phase: the download counter is passed through unchanged. -/
theorem readPhase_downloads (parse : ParseFn) (env : Env) (a : Action) (r : Release)
    (dls : Nat) : (readPhase parse env a r dls).downloads = dls := by
  unfold readPhase
  cases readGuard a r
  · exact (parsePhase_spec parse a r dls 0).2.1
  · cases env.readFile r.TorrentTmpFile
    · rfl
    · exact (parsePhase_spec parse a _ dls 1).2.1

/-- ParseMacros invokes DownloadTorrentFile exactly when the download guard
of action.go lines 64-67 holds. -/
theorem ParseMacros_downloads (parse : ParseFn) (env : Env) (a : Action) (r : Release) :
    (Action.ParseMacros parse env a r).downloads = if downloadGuard a r then 1 else 0 := by
  unfold Action.ParseMacros Release.DownloadTorrentFile
  cases h : downloadGuard a r
  · simp only [Bool.false_eq_true, if_false]
    exact readPhase_downloads parse env a r 0
  · simp only [if_true]
    cases env.download
    · exact readPhase_downloads parse env a _ 1
    · rfl

/-- When the download guard fails, ParseMacros goes straight to the
file-read step with a zero download counter. -/
theorem ParseMacros_noguard (parse : ParseFn) (env : Env) (a : Action) (r : Release)
    (hg : downloadGuard a r = false) :
    Action.ParseMacros parse env a r = readPhase parse env a r 0 := by
  unfold Action.ParseMacros
  rw [hg]
  rfl

/-- When the download guard holds and the download succeeds, ParseMacros
continues with the release carrying the downloaded path and bytes. -/
theorem ParseMacros_guard_ok (parse : ParseFn) (env : Env) (a : Action) (r : Release)
    (p : String) (bs : Bytes) (hg : downloadGuard a r = true)
    (hdl : env.download = .ok p bs) :
    Action.ParseMacros parse env a r =
      readPhase parse env a { r with TorrentTmpFile := p, TorrentDataRawBytes := bs } 1 := by
  unfold Action.ParseMacros Release.DownloadTorrentFile
  rw [hg, hdl]
  rfl

/-- When the download guard holds and the download fails, ParseMacros
returns the wrapped download error with action and release untouched. -/
theorem ParseMacros_guard_err (parse : ParseFn) (env : Env) (a : Action) (r : Release)
    (m : String) (hg : downloadGuard a r = true) (hdl : env.download = .err m) :
    Action.ParseMacros parse env a r =
      { err := some (.downloadErr m r.TorrentName), action := a, release := r,
        downloads := 1, reads := 0 } := by
  unfold Action.ParseMacros Release.DownloadTorrentFile
  rw [hg, hdl]
  rfl

/-- When the read guard fails, the file-read step is the substitution phase
with a zero read counter. -/
theorem readPhase_noguard (parse : ParseFn) (env : Env) (a : Action) (r : Release)
    (dls : Nat) (hg : readGuard a r = false) :
    readPhase parse env a r dls = parsePhase parse a r dls 0 := by
  unfold readPhase
  rw [hg]
  rfl

/-- When the read guard holds and the file read fails, the wrapped read
error is returned with action and release untouched. -/
theorem readPhase_guard_err (parse : ParseFn) (env : Env) (a : Action) (r : Release)
    (dls : Nat) (m : String) (hg : readGuard a r = true)
    (hrd : env.readFile r.TorrentTmpFile = .error m) :
    readPhase parse env a r dls =
      { err := some (.readErr m r.TorrentTmpFile), action := a, release := r,
        downloads := dls, reads := 1 } := by
  unfold readPhase
  rw [hg, hrd]
  rfl

/-- When the read guard holds and the file read succeeds, the bytes are
stored on the release and the substitution phase runs. -/
theorem readPhase_guard_ok (parse : ParseFn) (env : Env) (a : Action) (r : Release)
    (dls : Nat) (t : Bytes) (hg : readGuard a r = true)
    (hrd : env.readFile r.TorrentTmpFile = .ok t) :
    readPhase parse env a r dls =
      parsePhase parse a { r with TorrentDataRawBytes := t } dls 1 := by
  unfold readPhase
  rw [hg, hrd]
  rfl

/-- ActionType equality through the derived boolean test. -/
theorem actionType_beq_iff (t u : ActionType) : (t == u) = true ↔ t = u := by
  cases t <;> cases u <;> decide

/-- Characterisation of the download guard (action.go lines 64-67) as a
proposition. -/
theorem downloadGuard_iff (a : Action) (r : Release) :
    downloadGuard a r = true ↔
      (r.TorrentTmpFile = "" ∧
        (containsSubstr a.ExecArgs "TorrentPathName" = true ∨
         containsSubstr a.ExecArgs "TorrentDataRawBytes" = true ∨
         containsSubstr a.WebhookData "TorrentPathName" = true ∨
         containsSubstr a.WebhookData "TorrentDataRawBytes" = true ∨
         containsSubstr a.SavePath "TorrentPathName" = true ∨
         a.typ = ActionType.watchFolder)) := by
  simp only [downloadGuard, Bool.and_eq_true, Bool.or_eq_true, beq_iff_eq,
    actionType_beq_iff]
  tauto

/-- Download guard is off once the temporary file is cached. -/
theorem downloadGuard_false_of_cached (a : Action) (r : Release)
    (h : r.TorrentTmpFile ≠ "") : downloadGuard a r = false := by
  unfold downloadGuard
  have hb : (r.TorrentTmpFile == "") = false := by simp [h]
  rw [hb, Bool.false_and]

/-- Read guard is off once the byte cache is populated. -/
theorem readGuard_false_of_nonempty (a : Action) (r : Release)
    (h : r.TorrentDataRawBytes.isEmpty = false) : readGuard a r = false := by
  unfold readGuard
  rw [h, Bool.false_and]

/-- C1: the claim states that ParseMacros never discards the resolution
error of an earlier field in favour of a later result. The code does the opposite: at
this input the Parse of ExecArgs fails (sampleParse reports a template
error and returns the empty string) while the later Parse calls succeed, yet
ParseMacros returns no error, and the failed ExecArgs field has been
overwritten with the empty result of its failed Parse. This evaluates the
embedded code at the failing input of the code_bug record. -/
theorem c1_error_discarded :
    (sampleParse relCached act1.ExecArgs).2.isSome = true ∧
    (Action.ParseMacros sampleParse envOk act1 relCached).err = none ∧
    (Action.ParseMacros sampleParse envOk act1 relCached).action.ExecArgs = "" := by
  decide

/-- C2: the torrent payload is fetched at most once per release context:
DownloadTorrentFile is invoked only when TorrentTmpFile is empty; the file is
read only when the byte cache seen by the read step is empty; and once a
successful download has populated both caches, a subsequent ParseMacros call
for any other action against the resulting release performs no further fetch
and no further read. -/
theorem c2_at_most_once_fetch (parse : ParseFn) (env : Env) (a b : Action) (r : Release) :
    (r.TorrentTmpFile ≠ "" → (Action.ParseMacros parse env a r).downloads = 0) ∧
    ((Action.ParseMacros parse env a r).downloads = 0 → r.TorrentDataRawBytes ≠ [] →
       (Action.ParseMacros parse env a r).reads = 0) ∧
    (∀ p bs, env.download = .ok p bs → p ≠ "" → bs ≠ [] →
       (Action.ParseMacros parse env a r).downloads = 1 →
       (Action.ParseMacros parse env b (Action.ParseMacros parse env a r).release).downloads = 0 ∧
       (Action.ParseMacros parse env b (Action.ParseMacros parse env a r).release).reads = 0) := by
  refine ⟨?_, ?_, ?_⟩
  · intro htmp
    rw [ParseMacros_downloads, downloadGuard_false_of_cached a r htmp]
    rfl
  · intro hdl hbytes
    have hg : downloadGuard a r = false := by
      cases h : downloadGuard a r
      · rfl
      · rw [ParseMacros_downloads, h] at hdl
        simp at hdl
    have hbe : r.TorrentDataRawBytes.isEmpty = false := by
      cases h : r.TorrentDataRawBytes
      · exact absurd h hbytes
      · rfl
    rw [ParseMacros_noguard parse env a r hg,
      readPhase_noguard parse env a r 0 (readGuard_false_of_nonempty a r hbe)]
    exact (parsePhase_spec parse a r 0 0).2.2
  · intro p bs hok hp hbs hone
    have hg : downloadGuard a r = true := by
      cases h : downloadGuard a r
      · rw [ParseMacros_downloads, h] at hone
        simp at hone
      · rfl
    have hbe : bs.isEmpty = false := by
      cases bs
      · exact absurd rfl hbs
      · rfl
    have hrg : readGuard a { r with TorrentTmpFile := p, TorrentDataRawBytes := bs } = false :=
      readGuard_false_of_nonempty a _ hbe
    have hrel : (Action.ParseMacros parse env a r).release =
        { r with TorrentTmpFile := p, TorrentDataRawBytes := bs } := by
      rw [ParseMacros_guard_ok parse env a r p bs hg hok,
        readPhase_noguard parse env a _ 1 hrg]
      exact (parsePhase_spec parse a _ 1 0).1
    have hg2 : downloadGuard b (Action.ParseMacros parse env a r).release = false := by
      rw [hrel]
      exact downloadGuard_false_of_cached b _ hp
    have hrg2 : readGuard b (Action.ParseMacros parse env a r).release = false := by
      rw [hrel]
      exact readGuard_false_of_nonempty b _ hbe
    constructor
    · rw [ParseMacros_downloads, hg2]
      rfl
    · rw [ParseMacros_noguard parse env b _ hg2, readPhase_noguard parse env b _ 0 hrg2]
      exact (parsePhase_spec parse b _ 0 0).2.2

/-- C2 witness: concrete instances discharging each hypothesis of the three
clauses: a release with both caches populated is never fetched or read again,
and after one successful fetch a second action causes no further effects. -/
theorem c2_at_most_once_fetch_witness :
    (Action.ParseMacros sampleParse envOk act0 relCached).downloads = 0 ∧
    (Action.ParseMacros sampleParse envOk act0 relCached).reads = 0 ∧
    (Action.ParseMacros sampleParse envOk act0
      (Action.ParseMacros sampleParse envOk actWF relEmpty).release).downloads = 0 := by
  have h := c2_at_most_once_fetch sampleParse envOk act0 act0 relCached
  have h2 := c2_at_most_once_fetch sampleParse envOk actWF act0 relEmpty
  refine ⟨h.1 (by decide), h.2.1 (h.1 (by decide)) (by decide), ?_⟩
  exact (h2.2.2 "dl.torrent" [9] rfl (by decide) (by decide) (by decide)).1

/-- C3: for a WatchFolder action against a release with no cached torrent
file, ParseMacros invokes the download (regardless of the contents of the
templated fields, which are arbitrary here) and the payload bytes end up
cached on the release. -/
theorem c3_watchfolder_forces_fetch (parse : ParseFn) (env : Env) (a : Action)
    (r : Release) (p : String) (bs : Bytes) (hty : a.typ = ActionType.watchFolder)
    (htmp : r.TorrentTmpFile = "") (hok : env.download = .ok p bs) (hbs : bs ≠ []) :
    (Action.ParseMacros parse env a r).downloads = 1 ∧
    (Action.ParseMacros parse env a r).release.TorrentDataRawBytes = bs := by
  have hg : downloadGuard a r = true := by
    rw [downloadGuard_iff]
    exact ⟨htmp, Or.inr (Or.inr (Or.inr (Or.inr (Or.inr hty))))⟩
  have hbe : bs.isEmpty = false := by
    cases bs
    · exact absurd rfl hbs
    · rfl
  have hrg : readGuard a { r with TorrentTmpFile := p, TorrentDataRawBytes := bs } = false :=
    readGuard_false_of_nonempty a _ hbe
  rw [ParseMacros_guard_ok parse env a r p bs hg hok, readPhase_noguard parse env a _ 1 hrg]
  refine ⟨(parsePhase_spec parse a _ 1 0).2.1, ?_⟩
  rw [(parsePhase_spec parse a _ 1 0).1]

/-- C3 witness: a concrete WatchFolder action against the empty release
context under the successful download environment. -/
theorem c3_watchfolder_forces_fetch_witness :
    (Action.ParseMacros sampleParse envOk actWF relEmpty).downloads = 1 ∧
    (Action.ParseMacros sampleParse envOk actWF relEmpty).release.TorrentDataRawBytes = [9] :=
  c3_watchfolder_forces_fetch sampleParse envOk actWF relEmpty "dl.torrent" [9]
    rfl rfl rfl (by decide)

/-- C4 counterexample: an action whose Category field mentions the
raw-payload macro name, with ExecArgs, WebhookData and SavePath clean and a
type other than WatchFolder, is run against a release with no cached file,
and no fetch happens — refuting the claim that a torrent-macro reference in
any templated field (including Category) causes the fetch. -/
theorem c4_category_no_fetch :
    containsSubstr actCat.Category "TorrentDataRawBytes" = true ∧
    relEmpty.TorrentTmpFile = "" ∧
    (Action.ParseMacros sampleParse envOk actCat relEmpty).downloads = 0 := by
  decide

/-- C4 amended: ParseMacros triggers the download exactly when the release
has no cached temporary file and either ExecArgs or WebhookData mentions
TorrentPathName or TorrentDataRawBytes, or SavePath mentions TorrentPathName,
or the action type is WatchFolder; torrent-macro references in Category,
Tags, Label or WatchFolder never trigger it, and a TorrentDataRawBytes
reference in SavePath does not either. -/
theorem c4_fetch_trigger_characterisation (parse : ParseFn) (env : Env) (a : Action)
    (r : Release) :
    (Action.ParseMacros parse env a r).downloads = 1 ↔
      (r.TorrentTmpFile = "" ∧
        (containsSubstr a.ExecArgs "TorrentPathName" = true ∨
         containsSubstr a.ExecArgs "TorrentDataRawBytes" = true ∨
         containsSubstr a.WebhookData "TorrentPathName" = true ∨
         containsSubstr a.WebhookData "TorrentDataRawBytes" = true ∨
         containsSubstr a.SavePath "TorrentPathName" = true ∨
         a.typ = ActionType.watchFolder)) := by
  rw [ParseMacros_downloads, ← downloadGuard_iff]
  cases h : downloadGuard a r <;> simp [h]

/-- C5: the engine never mutates a persisted action: a run of the engine
over the persisted store returns the store unchanged; macro resolution
operates on the by-value copy inside each result. -/
theorem c5_engine_preserves_store (parse : ParseFn) (env : Env) (store : List Action)
    (r : Release) : (runActions parse env store r).2 = store := rfl

/-- C6: when the payload cannot be obtained or read, ParseMacros fails with
the wrapped error and performs no substitution: in each of the three failure
configurations (download fails; no download needed but the cached file cannot
be read; download succeeds but the downloaded file cannot be read) the entire
result carries the wrapped error and the returned action is exactly the input
action, so none of the seven templated fields were modified. -/
theorem c6_fetch_failure_no_substitution (parse : ParseFn) (env : Env) (a : Action)
    (r : Release) :
    (∀ m, downloadGuard a r = true → env.download = .err m →
       Action.ParseMacros parse env a r =
         { err := some (.downloadErr m r.TorrentName), action := a, release := r,
           downloads := 1, reads := 0 }) ∧
    (∀ m, downloadGuard a r = false → readGuard a r = true →
       env.readFile r.TorrentTmpFile = .error m →
       Action.ParseMacros parse env a r =
         { err := some (.readErr m r.TorrentTmpFile), action := a, release := r,
           downloads := 0, reads := 1 }) ∧
    (∀ p bs m, downloadGuard a r = true → env.download = .ok p bs →
       readGuard a { r with TorrentTmpFile := p, TorrentDataRawBytes := bs } = true →
       env.readFile p = .error m →
       Action.ParseMacros parse env a r =
         { err := some (.readErr m p), action := a,
           release := { r with TorrentTmpFile := p, TorrentDataRawBytes := bs },
           downloads := 1, reads := 1 }) := by
  refine ⟨?_, ?_, ?_⟩
  · intro m hg hdl
    exact ParseMacros_guard_err parse env a r m hg hdl
  · intro m hg hrg hrd
    rw [ParseMacros_noguard parse env a r hg, readPhase_guard_err parse env a r 0 m hrg hrd]
  · intro p bs m hg hdl hrg hrd
    rw [ParseMacros_guard_ok parse env a r p bs hg hdl,
      readPhase_guard_err parse env a _ 1 m hrg hrd]

/-- C6 witness: a concrete WatchFolder action against the empty release
under the failing-download environment: the wrapped download error comes
back and the action is untouched. -/
theorem c6_fetch_failure_no_substitution_witness :
    Action.ParseMacros sampleParse envDownloadFail actWF relEmpty =
      { err := some (.downloadErr "connection refused" "rel"), action := actWF,
        release := relEmpty, downloads := 1, reads := 0 } :=
  (c6_fetch_failure_no_substitution sampleParse envDownloadFail actWF relEmpty).1
    "connection refused" (by decide) rfl

/-- C7: ActionType is closed with exactly the sixteen variants of action.go
(every value is one of the sixteen pairwise-distinct entries, whose Go string
values are listed), and the reannounce policy of an action consists of
exactly the four fields skip, delete, interval and max attempts: two actions
have equal policy blocks precisely when those four fields agree. -/
theorem c7_actiontype_closed_policy_fields :
    allActionTypes.length = 16 ∧
    (∀ t : ActionType, t ∈ allActionTypes) ∧
    allActionTypes.Nodup ∧
    allActionTypes.map actionTypeString =
      ["TEST", "EXEC", "QBITTORRENT", "DELUGE_V1", "DELUGE_V2", "RTORRENT",
       "TRANSMISSION", "PORLA", "WATCH_FOLDER", "WEBHOOK", "RADARR", "SONARR",
       "LIDARR", "WHISPARR", "READARR", "SABNZBD"] ∧
    (∀ a b : Action, a.reannouncePolicy = b.reannouncePolicy ↔
      (a.ReAnnounceSkip = b.ReAnnounceSkip ∧ a.ReAnnounceDelete = b.ReAnnounceDelete ∧
       a.ReAnnounceInterval = b.ReAnnounceInterval ∧
       a.ReAnnounceMaxAttempts = b.ReAnnounceMaxAttempts)) := by
  refine ⟨by decide, fun t => by cases t <;> decide, by decide, by decide, fun a b => ?_⟩
  unfold Action.reannouncePolicy
  constructor
  · intro h
    exact ⟨congrArg ReannouncePolicy.skip h, congrArg ReannouncePolicy.delete h,
      congrArg ReannouncePolicy.interval h, congrArg ReannouncePolicy.maxAttempts h⟩
  · intro h
    rw [h.1, h.2.1, h.2.2.1, h.2.2.2]

/-- C8: macro resolution is deterministic: two ParseMacros runs from the
same action and release state, under the same unchanged environment and
macro engine, produce the same full outcome (error, resolved fields, release
caches, effect counts). -/
theorem c8_resolution_deterministic (parse : ParseFn) (env : Env) (a1 a2 : Action)
    (r1 r2 : Release) (ha : a1 = a2) (hr : r1 = r2) :
    Action.ParseMacros parse env a1 r1 = Action.ParseMacros parse env a2 r2 := by
  rw [ha, hr]

/-- C8 witness: the two runs coincide at a concrete action and release. -/
theorem c8_resolution_deterministic_witness :
    Action.ParseMacros sampleParse envOk act1 relCached =
      Action.ParseMacros sampleParse envOk act1 relCached :=
  c8_resolution_deterministic sampleParse envOk act1 act1 relCached relCached rfl rfl

/-- Characterisation of isEnabled (pushover.go lines 118-134). -/
theorem isEnabled_iff (s : Notification) :
    isEnabled s = true ↔ (s.Enabled = true ∧ s.APIKey ≠ "" ∧ s.Token ≠ "") := by
  unfold isEnabled
  cases hE : s.Enabled <;> by_cases hA : s.APIKey = "" <;> by_cases hT : s.Token = "" <;>
    simp [hA, hT]

/-- Characterisation of isEnabledEvent (pushover.go lines 136-144). -/
theorem isEnabledEvent_iff (s : Notification) (event : String) :
    isEnabledEvent s event = true ↔ event ∈ s.Events := by
  unfold isEnabledEvent
  simp [List.any_eq_true]

/-- C9: CanSend returns true exactly when the settings are enabled, both the
API key and the token are non-empty, and the event occurs in the configured
event list. -/
theorem c9_cansend_characterisation (s : Notification) (event : String) :
    CanSend s event = true ↔
      (s.Enabled = true ∧ s.APIKey ≠ "" ∧ s.Token ≠ "" ∧ event ∈ s.Events) := by
  unfold CanSend
  rw [show (s.Enabled = true ∧ s.APIKey ≠ "" ∧ s.Token ≠ "" ∧ event ∈ s.Events) ↔
      ((s.Enabled = true ∧ s.APIKey ≠ "" ∧ s.Token ≠ "") ∧ event ∈ s.Events) from by tauto]
  rw [← isEnabled_iff s, ← isEnabledEvent_iff s event]
  cases h1 : isEnabled s <;> cases h2 : isEnabledEvent s event <;> simp

/-- C10: Send returns nil exactly for a status-200 response (any other
status, and any request-construction, transport or body-read failure, yields
an error), and the assembled form data contains the expire=3600 and retry=60
entries exactly when the configured priority equals 2. -/
theorem c10_send_status_and_priority (s : Notification) (message title : String)
    (timestamp : Int) (http : HttpOutcome) :
    (Send http = none ↔ ∃ body, http = .response 200 body) ∧
    ((("expire", "3600") ∈ pushoverFormData s message title timestamp ∧
      ("retry", "60") ∈ pushoverFormData s message title timestamp) ↔ s.Priority = 2) := by
  constructor
  · cases http with
    | reqErr m => simp [Send]
    | doErr m => simp [Send]
    | readBodyErr m => simp [Send]
    | response st body =>
        by_cases hst : st = 200 <;> simp [Send, hst]
  · unfold pushoverFormData
    by_cases hp : s.Priority = 2 <;> simp [hp]

end Autobrr
